import Mathlib

/-!
# EdgePulse agent control plane — verification of spec claims

Shallow embedding of the remote-control plane of `src/ping_benchmark.py`
(class `PingBenchmark`): the shell-session registry (`shell_sessions`,
a Python dict from session id to `{'fd', 'pid', 'rows', 'cols'}`), the
PTY session manager handlers (`_open_shell_session`,
`_handle_shell_input`, `_resize_shell`, `_close_shell_session`, the
`disconnect` socketio handler), the command dispatch path
(`execute_command`, `poll_for_commands`, `command_polling_worker`),
and the base64 transport used by `shell_input`/`shell_output`.

OS-level effects (fork, descriptor writes, signals, HTTP) are modelled
as oracle parameters and explicit effect/action values; Python's dict
is modelled as an association list with lookup, replace-or-append
insertion, and erase.
-/

namespace EdgePulse

/-- One entry of `self.shell_sessions`: the dict value
`{'fd': fd, 'pid': pid, 'rows': rows, 'cols': cols}` stored by
`_open_shell_session`. -/
structure ShellSession where
  fd : Nat
  pid : Nat
  rows : Nat
  cols : Nat
deriving DecidableEq, Repr

/-- The session registry `self.shell_sessions`: a Python dict from
session id to session record, modelled as an association list with
distinct keys maintained by the operations below. -/
abbrev Registry := List (String × ShellSession)

/-- Python `d.get(k)`: first (unique) binding of `k`, if any. -/
def dictGet (d : Registry) (k : String) : Option ShellSession :=
  match d with
  | [] => none
  | (k', v) :: rest => if k' = k then some v else dictGet rest k

/-- Python `d[k] = v`: replace the binding of `k` if present, else
append a new binding. -/
def dictSet (d : Registry) (k : String) (v : ShellSession) : Registry :=
  match d with
  | [] => [(k, v)]
  | (k', v') :: rest =>
      if k' = k then (k, v) :: rest else (k', v') :: dictSet rest k v

/-- Python `d.pop(k, None)`, the removal part: drop the binding of `k`. -/
def dictErase (d : Registry) (k : String) : Registry :=
  d.filter (fun e => e.1 != k)

/-- Events the agent emits on the socketio control channel
(`self.sio.emit(...)`). -/
inductive Event where
  | shellReady (session_id : String)
  | shellOutput (session_id : String) (output : List Char)
  | shellClientExit (session_id : String) (exit_code : Int)
deriving DecidableEq, Repr

/-- Outcome of `pty.fork()` in the parent as seen by
`_open_shell_session`: `some (pid, fd)` on success, `none` when the
fork / PTY allocation raises. -/
abbrev SpawnOutcome := Option (Nat × Nat)

/-- Model of `PingBenchmark._open_shell_session(session_id, rows, cols)`.
On a successful `pty.fork()` the parent makes the descriptor
non-blocking, sets the terminal size, stores the session record in
`shell_sessions` (a plain dict assignment, replacing any existing
binding), emits `shell_ready`, and starts the reader thread.  When the
fork / PTY allocation raises, the handler emits
`shell_client_exit(session_id, -1)` and touches nothing.  Returns the
updated registry and the list of emitted events. -/
def open_shell_session (spawn : SpawnOutcome) (session_id : String)
    (rows cols : Nat) (d : Registry) : Registry × List Event :=
  match spawn with
  | some (pid, fd) =>
      (dictSet d session_id ⟨fd, pid, rows, cols⟩,
       [Event.shellReady session_id])
  | none => (d, [Event.shellClientExit session_id (-1)])

/-- Lookup with `dictGet` after `dictSet` at the same key finds the new value. -/
theorem dictGet_dictSet (d : Registry) (k : String) (v : ShellSession) :
    dictGet (dictSet d k v) k = some v := by
  induction d with
  | nil => simp [dictSet, dictGet]
  | cons e rest ih =>
      obtain ⟨k', v'⟩ := e
      by_cases h : k' = k <;> simp [dictSet, dictGet, h, ih]

/-- If `k` is unbound, `dictErase` leaves the registry unchanged. -/
theorem dictErase_of_get_none (d : Registry) (k : String)
    (h : dictGet d k = none) : dictErase d k = d := by
  induction d with
  | nil => rfl
  | cons e rest ih =>
      obtain ⟨k', v'⟩ := e
      by_cases hk : k' = k
      · simp [dictGet, hk] at h
      · simp [dictGet, hk] at h
        simp [dictErase, List.filter_cons, bne_iff_ne, hk] at ih ⊢
        exact ih h

/-- After `dictErase d k`, key `k` is unbound. -/
theorem dictGet_dictErase (d : Registry) (k : String) :
    dictGet (dictErase d k) k = none := by
  induction d with
  | nil => rfl
  | cons e rest ih =>
      obtain ⟨k', v'⟩ := e
      by_cases hk : k' = k
      · simpa [dictErase, List.filter_cons, bne_iff_ne, hk] using ih
      · simpa [dictErase, List.filter_cons, bne_iff_ne, hk, dictGet] using ih

/-- The descriptor-level effect of `_handle_shell_input`: no session →
nothing; session found → the base64-decoded bytes are written to its
descriptor with `os.write`; a decode/write exception is caught and
logged. -/
inductive InputEffect where
  | noop
  | wrote (fd : Nat) (bytes : List Nat)
  | writeError
deriving DecidableEq, Repr

/-- The `ioctl(fd, TIOCSWINSZ, ...)` performed by `_set_pty_size`. -/
inductive ResizeAction where
  | setWinsize (fd rows cols : Nat)
deriving DecidableEq, Repr

/-- The OS-level steps `_close_shell_session` performs on the popped
session: `os.close(fd)`, `os.kill(pid, SIGTERM)`, `time.sleep(0.1)`,
`os.kill(pid, SIGKILL)`, `os.waitpid(pid, WNOHANG)` (each wrapped in
try/except). -/
inductive TdAction where
  | closeFd (fd : Nat)
  | sigterm (pid : Nat)
  | sleepGrace
  | sigkill (pid : Nat)
  | reapNonblocking (pid : Nat)
deriving DecidableEq, Repr

/-- Teardown body of `PingBenchmark._close_shell_session` after the
`pop` found a session: it closes the descriptor, sends SIGTERM, sleeps
the 0.1 s grace period, sends SIGKILL (unconditionally, with any error
swallowed by `except: pass`), and reaps with `waitpid(..., WNOHANG)`. -/
def teardown (s : ShellSession) : List TdAction :=
  [TdAction.closeFd s.fd, TdAction.sigterm s.pid, TdAction.sleepGrace,
   TdAction.sigkill s.pid, TdAction.reapNonblocking s.pid]

/-- Model of `PingBenchmark._close_shell_session(session_id)`:
`session = self.shell_sessions.pop(session_id, None)`; if nothing was
popped it returns immediately, otherwise it performs the teardown
actions on the popped session. -/
def close_shell_session (d : Registry) (session_id : String) :
    Registry × Option (List TdAction) :=
  match dictGet d session_id with
  | none => (d, none)
  | some s => (dictErase d session_id, some (teardown s))

/-- Model of `PingBenchmark._resize_shell(session_id, rows, cols)`: look up the
session; absent → return; present → store the new dimensions in the
session record and apply `TIOCSWINSZ` to its descriptor. -/
def resize_shell (d : Registry) (session_id : String) (rows cols : Nat) :
    Registry × Option ResizeAction :=
  match dictGet d session_id with
  | none => (d, none)
  | some s =>
      (dictSet d session_id { s with rows := rows, cols := cols },
       some (ResizeAction.setWinsize s.fd rows cols))

/-- The `disconnect` socketio handler registered in
`start_shell_client`: iterate over a snapshot of
`self.shell_sessions.keys()` and call `_close_shell_session` on each. -/
def on_disconnect (d : Registry) : Registry :=
  List.foldl (fun acc sid => (close_shell_session acc sid).1) d
    (d.map Prod.fst)

/-- Liveness of the shell child process, for analysing teardown:
`alive`, `zombie` (terminated but not reaped), `reaped`. -/
inductive ProcState where
  | alive
  | zombie
  | reaped
deriving DecidableEq, Repr

/-- Effect of one teardown action on the child process.  The oracle
`diesOnTerm` says whether the child terminates in response to SIGTERM
(within the grace period); SIGKILL always terminates it; `waitpid`
with `WNOHANG` reaps a terminated child and does nothing to a live
one; closing the descriptor and sleeping do not change liveness. -/
def stepProc (diesOnTerm : Bool) : ProcState → TdAction → ProcState
  | ProcState.alive, TdAction.sigterm _ =>
      if diesOnTerm then ProcState.zombie else ProcState.alive
  | ProcState.alive, TdAction.sigkill _ => ProcState.zombie
  | ProcState.zombie, TdAction.reapNonblocking _ => ProcState.reaped
  | st, _ => st

/-- The registry after `_close_shell_session` is exactly the input with
the key erased (erasing an absent key changes nothing). -/
theorem close_shell_session_fst (d : Registry) (k : String) :
    (close_shell_session d k).1 = dictErase d k := by
  unfold close_shell_session
  cases h : dictGet d k with
  | none => simpa using (dictErase_of_get_none d k h).symm
  | some s => rfl

/-- Folding `_close_shell_session` over a list of keys filters those
keys out of the registry. -/
theorem foldl_close_eq_filter (ks : List String) (d : Registry) :
    List.foldl (fun acc sid => (close_shell_session acc sid).1) d ks
      = d.filter (fun e => !(ks.contains e.1)) := by
  induction ks generalizing d with
  | nil => simp
  | cons k ks ih =>
      rw [List.foldl_cons, close_shell_session_fst, ih, dictErase,
        List.filter_filter]
      apply List.filter_congr
      intro e _
      by_cases h1 : e.1 = k <;> by_cases h2 : e.1 ∈ ks <;>
        simp [List.contains_cons, Bool.not_or, bne, h1, h2]

/-- The standard base64 alphabet used by Python's `base64.b64encode` /
`b64decode` (RFC 4648, `+`/`/`, `=` padding). -/
def b64alphabet : List Char :=
  "ABCDEFGHIJKLMNOPQRSTUVWXYZabcdefghijklmnopqrstuvwxyz0123456789+/".toList

/-- Character for a six-bit group. -/
def idxToChar (n : Nat) : Char := b64alphabet.getD n 'A'

/-- Six-bit value of an alphabet character, `none` for a character
outside the alphabet. -/
def charToIdx (c : Char) : Option Nat :=
  go b64alphabet 0
where go : List Char → Nat → Option Nat
  | [], _ => none
  | a :: rest, i => if a = c then some i else go rest (i + 1)

/-- First byte of a decoded quantum: six bits of `w`, top two of `x`. -/
def byte1 (w x : Nat) : Nat := w * 4 + x / 16

/-- Second byte: low four bits of `x`, top four of `y`. -/
def byte2 (x y : Nat) : Nat := (x % 16) * 16 + y / 4

/-- Third byte: low two bits of `y`, six bits of `z`. -/
def byte3 (y z : Nat) : Nat := (y % 4) * 64 + z

/-- Python `base64.b64encode` over a byte list (each byte `< 256`): three
bytes become four alphabet characters; a two-byte tail becomes three
characters and one `=`; a one-byte tail becomes two characters and
`==`. -/
def b64encode : List Nat → List Char
  | a :: b :: c :: rest =>
      idxToChar (a / 4) :: idxToChar ((a % 4) * 16 + b / 16) ::
      idxToChar ((b % 16) * 4 + c / 64) :: idxToChar (c % 64) ::
      b64encode rest
  | [a, b] =>
      [idxToChar (a / 4), idxToChar ((a % 4) * 16 + b / 16),
       idxToChar ((b % 16) * 4), '=']
  | [a] => [idxToChar (a / 4), idxToChar ((a % 4) * 16), '=', '=']
  | [] => []

/-- Python `base64.b64decode` on strict standard base64 text: the input is
consumed in four-character quanta; `=` padding is only accepted at the
very end; a character outside the alphabet, a stray padding character
or a length that is not a multiple of four raises `binascii.Error`,
modelled as `none`.  (Python's default decoder additionally discards
non-alphabet characters before decoding; on text produced by
`b64encode` — the only text the agent's counterpart sends — the two
behaviours agree.) -/
def b64decode : List Char → Option (List Nat)
  | [] => some []
  | w :: x :: y :: z :: rest =>
      match charToIdx w, charToIdx x with
      | some wi, some xi =>
          if y = '=' then
            if z = '=' ∧ rest = [] then some [byte1 wi xi] else none
          else
            match charToIdx y with
            | some yi =>
                if z = '=' then
                  if rest = [] then some [byte1 wi xi, byte2 xi yi]
                  else none
                else
                  match charToIdx z with
                  | some zi =>
                      match b64decode rest with
                      | some t =>
                          some (byte1 wi xi :: byte2 xi yi ::
                                byte3 yi zi :: t)
                      | none => none
                  | none => none
            | none => none
      | _, _ => none
  | _ => none

/-- The map `charToIdx` inverts `idxToChar` on six-bit values. -/
theorem charToIdx_idxToChar : ∀ n, n < 64 →
    charToIdx (idxToChar n) = some n := by decide

/-- Alphabet characters are never the padding character. -/
theorem idxToChar_ne_pad : ∀ n, n < 64 → idxToChar n ≠ '=' := by decide

/-- Decoding inverts encoding on byte lists. -/
theorem b64decode_b64encode (bs : List Nat) (h : ∀ b ∈ bs, b < 256) :
    b64decode (b64encode bs) = some bs := by
  match bs with
  | [] => rfl
  | [a] =>
      have ha : a < 256 := h a (by simp)
      have h1 : a / 4 < 64 := by omega
      have h2 : (a % 4) * 16 < 64 := by omega
      simp [b64encode, b64decode, charToIdx_idxToChar _ h1,
        charToIdx_idxToChar _ h2, byte1]
      omega
  | [a, b] =>
      have ha : a < 256 := h a (by simp)
      have hb : b < 256 := h b (by simp)
      have h1 : a / 4 < 64 := by omega
      have h2 : (a % 4) * 16 + b / 16 < 64 := by omega
      have h3 : (b % 16) * 4 < 64 := by omega
      simp [b64encode, b64decode, charToIdx_idxToChar _ h1,
        charToIdx_idxToChar _ h2, charToIdx_idxToChar _ h3,
        idxToChar_ne_pad _ h3, byte1, byte2]
      omega
  | a :: b :: c :: rest =>
      have ha : a < 256 := h a (by simp)
      have hb : b < 256 := h b (by simp)
      have hc : c < 256 := h c (by simp)
      have ih : b64decode (b64encode rest) = some rest :=
        b64decode_b64encode rest (fun x hx =>
          h x (List.mem_cons_of_mem _ (List.mem_cons_of_mem _
            (List.mem_cons_of_mem _ hx))))
      have h1 : a / 4 < 64 := by omega
      have h2 : (a % 4) * 16 + b / 16 < 64 := by omega
      have h3 : (b % 16) * 4 + c / 64 < 64 := by omega
      have h4 : c % 64 < 64 := by omega
      simp [b64encode, b64decode, charToIdx_idxToChar _ h1,
        charToIdx_idxToChar _ h2, charToIdx_idxToChar _ h3,
        charToIdx_idxToChar _ h4, idxToChar_ne_pad _ h3,
        idxToChar_ne_pad _ h4, ih, byte1, byte2, byte3]
      omega

/-- Model of `PingBenchmark._handle_shell_input(session_id, input_data)`: look
up the session (`self.shell_sessions.get(session_id)`); absent →
return; present → `base64.b64decode(input_data)` and `os.write` the
raw bytes to the session's descriptor, with any decode/write exception
caught and logged.  The registry itself is never modified. -/
def handle_shell_input (d : Registry) (session_id : String)
    (input_data : List Char) : Registry × InputEffect :=
  match dictGet d session_id with
  | none => (d, InputEffect.noop)
  | some s =>
      match b64decode input_data with
      | some bytes => (d, InputEffect.wrote s.fd bytes)
      | none => (d, InputEffect.writeError)

/-- The command record received from a poll response
(`data.get('command')`): the fields `execute_command` reads with
`command_data.get(...)`, each possibly absent. -/
structure CommandData where
  command_string : Option String
  timeout : Option Nat
  command_uuid : Option String
  command_id : Option String
deriving DecidableEq, Repr

/-- Outcome of the `subprocess.run(command_string, shell=True,
capture_output=True, text=True, timeout=timeout)` call: normal
completion with return code and captured output, `TimeoutExpired`, or
any other exception with its message. -/
inductive ExecOutcome where
  | completed (returncode : Int) (stdout stderr : String)
  | timedOut
  | failed (msg : String)
deriving DecidableEq, Repr

/-- The result dict built by `execute_command` (the `executed_at`
timestamp is not modelled; `duration_seconds` is carried abstractly). -/
structure CommandResult where
  command_uuid : String
  command_id : String
  exit_code : Int
  stdout : String
  stderr : String
  duration_seconds : Nat
  error : Option String
deriving DecidableEq, Repr

/-- Result-dict construction of `execute_command` for a given
subprocess outcome: the `try` return, the `except TimeoutExpired`
return, and the `except Exception` return. -/
def mk_command_result (command_uuid command_id : String) (timeout : Nat)
    (duration : Nat) : ExecOutcome → CommandResult
  | ExecOutcome.completed rc out err =>
      ⟨command_uuid, command_id, rc, out, err, duration, none⟩
  | ExecOutcome.timedOut =>
      ⟨command_uuid, command_id, -1, "",
       "Command timed out after " ++ toString timeout ++ " seconds",
       duration, some "timeout"⟩
  | ExecOutcome.failed msg =>
      ⟨command_uuid, command_id, -1, "", msg, duration, some msg⟩

/-- Model of `PingBenchmark.execute_command(command_data)`: read
`command_string` (default `''`), `timeout` (default `60`),
`command_uuid` and `command_id` (default `''`) from the record, run
the command with that timeout (the subprocess is the oracle `run`,
applied to the command string and the timeout), and return the result
dict.  All three outcome branches return normally. -/
def execute_command (run : String → Nat → ExecOutcome)
    (command_data : CommandData) (duration : Nat) : CommandResult :=
  let command_string := command_data.command_string.getD ""
  let timeout := command_data.timeout.getD 60
  let command_uuid := command_data.command_uuid.getD ""
  let command_id := command_data.command_id.getD ""
  mk_command_result command_uuid command_id timeout duration
    (run command_string timeout)

/-- Body of a poll response as seen by `poll_for_commands` after
`json.loads`: either malformed JSON (raising, caught by the handler's
`except Exception`) or a parsed object with `has_command` and an
optional `command`. -/
inductive PollBody where
  | malformed
  | parsed (has_command : Bool) (command : Option CommandData)
deriving DecidableEq, Repr

/-- What the HTTP round-trip in `poll_for_commands` produces:
`urllib.error.HTTPError` with a status code, any other exception
(network error etc.), or a response with a status and a body. -/
inductive PollResponse where
  | httpError (code : Nat)
  | connectionError
  | success (status : Nat) (body : PollBody)
deriving DecidableEq, Repr

/-- Model of `PingBenchmark.poll_for_commands()`: returns `None` unless a
center server URL and secret key are configured; issues the GET and
returns `data.get('command')` only when the status is 200,
`json.loads` succeeds and `has_command` is truthy; every failure —
`HTTPError` (401 merely logs a warning first), any other exception,
a non-200 status, malformed JSON — returns `None`. -/
def poll_for_commands (configured : Bool) (resp : PollResponse) :
    Option CommandData :=
  if !configured then none
  else
    match resp with
    | PollResponse.httpError _ => none
    | PollResponse.connectionError => none
    | PollResponse.success status body =>
        if status = 200 then
          match body with
          | PollBody.malformed => none
          | PollBody.parsed has_command command =>
              if has_command then command else none
        else none

/-- One iteration of the `command_polling_worker` loop body (the part
inside `try`, before `time.sleep`): poll; if a command was returned,
execute it and submit the result; otherwise do nothing.  Returns the
result that was executed and submitted this cycle, if any. -/
def command_polling_iteration (configured : Bool) (resp : PollResponse)
    (run : String → Nat → ExecOutcome) (duration : Nat) :
    Option CommandResult :=
  match poll_for_commands configured resp with
  | none => none
  | some command => some (execute_command run command duration)

/-- Fields `command_uuid` of the result dict come straight from the
arguments, for every subprocess outcome. -/
theorem mk_command_result_uuid (u i : String) (t d : Nat)
    (o : ExecOutcome) : (mk_command_result u i t d o).command_uuid = u := by
  cases o <;> rfl

/-- Fields `command_id` of the result dict come straight from the
arguments, for every subprocess outcome. -/
theorem mk_command_result_id (u i : String) (t d : Nat)
    (o : ExecOutcome) : (mk_command_result u i t d o).command_id = i := by
  cases o <;> rfl

/-- C1 (counterexample): `_open_shell_session` performs no duplicate
check.  With session `"s"` already registered as descriptor 3 /
pid 4, a second `shell_open` for `"s"` whose fork yields pid 7 /
descriptor 8 proceeds (emits `shell_ready`, reports no AlreadyExists
error — no such event exists in the protocol) and overwrites the
registry entry, which now points at the new pair instead of the pair
it was created with. -/
theorem claim_C1_counterexample :
    dictGet [("s", (⟨3, 4, 24, 80⟩ : ShellSession))] "s"
        = some ⟨3, 4, 24, 80⟩ ∧
    dictGet (open_shell_session (some (7, 8)) "s" 24 80
        [("s", ⟨3, 4, 24, 80⟩)]).1 "s" = some ⟨8, 7, 24, 80⟩ ∧
    (⟨8, 7, 24, 80⟩ : ShellSession) ≠ ⟨3, 4, 24, 80⟩ ∧
    (open_shell_session (some (7, 8)) "s" 24 80
        [("s", ⟨3, 4, 24, 80⟩)]).2 = [Event.shellReady "s"] := by
  decide

/-- C1 (amended): opening a session whose `session_id` is already
registered does not report AlreadyExists and does not preserve the
old entry: the successful open replaces the registry entry with the
newly created process/descriptor pair and emits `shell_ready`, leaving
the previous pair orphaned. -/
theorem claim_C1 (d : Registry) (session_id : String)
    (old : ShellSession) (pid fd rows cols : Nat)
    (h : dictGet d session_id = some old) :
    dictGet (open_shell_session (some (pid, fd)) session_id rows cols d).1
        session_id = some ⟨fd, pid, rows, cols⟩ ∧
    (open_shell_session (some (pid, fd)) session_id rows cols d).2
        = [Event.shellReady session_id] := by
  exact ⟨dictGet_dictSet d session_id ⟨fd, pid, rows, cols⟩, rfl⟩

/-- Witness for C1 at a concrete registry. -/
theorem claim_C1_witness :
    dictGet (open_shell_session (some (7, 8)) "t" 24 80
        [("t", ⟨3, 4, 24, 80⟩)]).1 "t" = some ⟨8, 7, 24, 80⟩ ∧
    (open_shell_session (some (7, 8)) "t" 24 80
        [("t", ⟨3, 4, 24, 80⟩)]).2 = [Event.shellReady "t"] :=
  claim_C1 [("t", ⟨3, 4, 24, 80⟩)] "t" ⟨3, 4, 24, 80⟩ 7 8 24 80 (by decide)

/-- C2: every `shell_open` emits exactly one `shell_ready` or exactly
one `shell_client_exit(-1)`, never neither and never both: a
successful fork/PTY allocation emits one `shell_ready` and no
`shell_client_exit` (for any exit code), and a failed one emits one
`shell_client_exit(session_id, -1)` and no `shell_ready`. -/
theorem claim_C2 (spawn : SpawnOutcome) (session_id : String)
    (rows cols : Nat) (d : Registry) :
    (spawn.isSome = true →
      ((open_shell_session spawn session_id rows cols d).2).count
          (Event.shellReady session_id) = 1 ∧
      ∀ c : Int, ((open_shell_session spawn session_id rows cols d).2).count
          (Event.shellClientExit session_id c) = 0) ∧
    (spawn = none →
      ((open_shell_session spawn session_id rows cols d).2).count
          (Event.shellClientExit session_id (-1)) = 1 ∧
      ((open_shell_session spawn session_id rows cols d).2).count
          (Event.shellReady session_id) = 0) := by
  cases spawn with
  | none => simp [open_shell_session, List.count_cons]
  | some pf =>
      obtain ⟨pid, fd⟩ := pf
      simp [open_shell_session, List.count_cons]

/-- Witness for C2: one concrete successful open and one concrete
failed open. -/
theorem claim_C2_witness :
    ((open_shell_session (some (1, 2)) "s" 24 80 []).2).count
        (Event.shellReady "s") = 1 ∧
    ((open_shell_session none "s" 24 80 []).2).count
        (Event.shellClientExit "s" (-1)) = 1 := by
  refine ⟨((claim_C2 (some (1, 2)) "s" 24 80 []).1 (by decide)).1, ?_⟩
  exact ((claim_C2 none "s" 24 80 []).2 rfl).1

/-- C3: whenever the subprocess call raises `TimeoutExpired`,
`execute_command` returns (it does not raise) the record with
`exit_code = -1`, empty stdout, the explanatory stderr message, the
elapsed duration, and `error = "timeout"`. -/
theorem claim_C3 (run : String → Nat → ExecOutcome)
    (command_data : CommandData) (duration : Nat)
    (h : run (command_data.command_string.getD "")
        (command_data.timeout.getD 60) = ExecOutcome.timedOut) :
    execute_command run command_data duration =
      ⟨command_data.command_uuid.getD "", command_data.command_id.getD "",
       -1, "",
       "Command timed out after " ++
         toString (command_data.timeout.getD 60) ++ " seconds",
       duration, some "timeout"⟩ := by
  simp [execute_command, h, mk_command_result]

/-- Witness for C3: `execute({command_string: "sleep 10", timeout: 1})`
with a timing-out subprocess. -/
theorem claim_C3_witness :
    execute_command (fun _ _ => ExecOutcome.timedOut)
        ⟨some "sleep 10", some 1, some "u", some "c"⟩ 1 =
      ⟨"u", "c", -1, "", "Command timed out after 1 seconds", 1,
       some "timeout"⟩ :=
  claim_C3 (fun _ _ => ExecOutcome.timedOut)
    ⟨some "sleep 10", some 1, some "u", some "c"⟩ 1 rfl

/-- C4: every failure mode of a poll — `HTTPError` with any code
(including 401), any other network/exception failure, malformed
response body for any status — makes `poll_for_commands` return the
no-command value `None` rather than raising, and in that cycle the
dispatch-loop body executes no command and proceeds to its
sleep-and-retry (both functions are total, so no exception escapes). -/
theorem claim_C4 (configured : Bool)
    (run : String → Nat → ExecOutcome) (duration : Nat) :
    (∀ code, poll_for_commands configured (PollResponse.httpError code)
        = none) ∧
    poll_for_commands configured PollResponse.connectionError = none ∧
    (∀ status, poll_for_commands configured
        (PollResponse.success status PollBody.malformed) = none) ∧
    (∀ code, command_polling_iteration configured
        (PollResponse.httpError code) run duration = none) ∧
    command_polling_iteration configured PollResponse.connectionError
        run duration = none ∧
    (∀ status, command_polling_iteration configured
        (PollResponse.success status PollBody.malformed) run duration
        = none) := by
  have hp : ∀ status, poll_for_commands configured
      (PollResponse.success status PollBody.malformed) = none := by
    intro status
    cases configured
    · rfl
    · by_cases hs : status = 200 <;> simp [poll_for_commands, hs]
  refine ⟨fun code => by cases configured <;> rfl,
    by cases configured <;> rfl, hp,
    fun code => by cases configured <;> rfl,
    by cases configured <;> rfl,
    fun status => by simp [command_polling_iteration, hp status]⟩

/-- C5: input, resize and close for a `session_id` absent from the
registry are no-ops that return normally (the handlers are total
functions, so nothing is raised) and leave the registry unchanged. -/
theorem claim_C5 (d : Registry) (session_id : String)
    (input_data : List Char) (rows cols : Nat)
    (h : dictGet d session_id = none) :
    handle_shell_input d session_id input_data = (d, InputEffect.noop) ∧
    resize_shell d session_id rows cols = (d, none) ∧
    close_shell_session d session_id = (d, none) := by
  simp [handle_shell_input, resize_shell, close_shell_session, h]

/-- Witness for C5 on an empty registry. -/
theorem claim_C5_witness :
    handle_shell_input [] "x" [] = ([], InputEffect.noop) ∧
    resize_shell [] "x" 24 80 = ([], none) ∧
    close_shell_session [] "x" = ([], none) :=
  claim_C5 [] "x" [] 24 80 rfl

/-- C6: close is idempotent.  A first close of a registered session
removes its entry and performs the teardown; after it the id is
unbound, and a second close for the same id returns normally, changes
nothing and performs no teardown. -/
theorem claim_C6 (d : Registry) (session_id : String) (s : ShellSession)
    (h : dictGet d session_id = some s) :
    close_shell_session d session_id
        = (dictErase d session_id, some (teardown s)) ∧
    dictGet (close_shell_session d session_id).1 session_id = none ∧
    close_shell_session (close_shell_session d session_id).1 session_id
        = ((close_shell_session d session_id).1, none) := by
  have h2 : dictGet (close_shell_session d session_id).1 session_id
      = none := by
    rw [close_shell_session_fst]
    exact dictGet_dictErase d session_id
  refine ⟨by simp [close_shell_session, h], h2, ?_⟩
  set r1 := (close_shell_session d session_id).1 with hr
  simp [close_shell_session, h2]

/-- Witness for C6 on a one-session registry. -/
theorem claim_C6_witness :
    close_shell_session [("s", ⟨1, 2, 24, 80⟩)] "s"
        = ([], some (teardown ⟨1, 2, 24, 80⟩)) ∧
    dictGet (close_shell_session [("s", ⟨1, 2, 24, 80⟩)] "s").1 "s"
        = none ∧
    close_shell_session
        (close_shell_session [("s", ⟨1, 2, 24, 80⟩)] "s").1 "s"
        = ((close_shell_session [("s", ⟨1, 2, 24, 80⟩)] "s").1, none) :=
  claim_C6 [("s", ⟨1, 2, 24, 80⟩)] "s" ⟨1, 2, 24, 80⟩ (by decide)

/-- C7: the `disconnect` handler force-closes every open session:
whatever the registry held, after `on_disconnect` it is empty. -/
theorem claim_C7 (d : Registry) : on_disconnect d = [] := by
  rw [on_disconnect, foldl_close_eq_filter]
  rw [List.filter_eq_nil_iff]
  intro e he
  simp [List.mem_map_of_mem Prod.fst he]

/-- C8 (counterexample): teardown does not force-kill "only if the
child is still alive".  For a child that terminates in response to
SIGTERM during the grace period (so it is no longer alive after the
first three teardown steps), the teardown action list still contains
the SIGKILL. -/
theorem claim_C8_counterexample :
    TdAction.sigkill 2 ∈ teardown ⟨1, 2, 24, 80⟩ ∧
    List.foldl (stepProc true) ProcState.alive
        ((teardown ⟨1, 2, 24, 80⟩).take 3) ≠ ProcState.alive := by
  decide

/-- C8 (amended): teardown performs, in order: close the descriptor,
SIGTERM, the grace-period sleep, then SIGKILL unconditionally (any
error swallowed), then a non-blocking reap — and whether or not the
child died from the SIGTERM, the child ends up reaped, not a
zombie. -/
theorem claim_C8 (s : ShellSession) (diesOnTerm : Bool) :
    teardown s = [TdAction.closeFd s.fd, TdAction.sigterm s.pid,
      TdAction.sleepGrace, TdAction.sigkill s.pid,
      TdAction.reapNonblocking s.pid] ∧
    List.foldl (stepProc diesOnTerm) ProcState.alive (teardown s)
      = ProcState.reaped := by
  cases diesOnTerm <;> exact ⟨rfl, rfl⟩

/-- C9: for a registered session, the input handler writes to that
session's descriptor exactly the base64-decoding of the event
payload, in order; and decoding after encoding is the identity on
byte lists, so the transported bytes arrive untransformed. -/
theorem claim_C9 (d : Registry) (session_id : String) (s : ShellSession)
    (input_data : List Char) (bytes : List Nat)
    (hs : dictGet d session_id = some s)
    (hdec : b64decode input_data = some bytes) :
    handle_shell_input d session_id input_data
        = (d, InputEffect.wrote s.fd bytes) ∧
    ∀ bs : List Nat, (∀ b ∈ bs, b < 256) →
      b64decode (b64encode bs) = some bs := by
  exact ⟨by simp [handle_shell_input, hs, hdec],
    fun bs h => b64decode_b64encode bs h⟩

/-- Witness for C9: payload `"aGk="` (the encoding of bytes 104 105,
`"hi"`) written to the registered session with descriptor 5. -/
theorem claim_C9_witness :
    handle_shell_input [("s", ⟨5, 6, 24, 80⟩)] "s" ("aGk=".toList)
        = ([("s", ⟨5, 6, 24, 80⟩)], InputEffect.wrote 5 [104, 105]) ∧
    b64decode (b64encode [104, 105]) = some [104, 105] := by
  have h := claim_C9 [("s", ⟨5, 6, 24, 80⟩)] "s" ⟨5, 6, 24, 80⟩
    ("aGk=".toList) [104, 105] (by decide) (by decide)
  exact ⟨h.1, h.2 [104, 105] (by decide)⟩

/-- C10: for every input record and every subprocess outcome, the
result's `command_uuid` and `command_id` equal the input's (empty
string when absent), and when the record has no `timeout` field the
subprocess is run with the default timeout of 60 seconds. -/
theorem claim_C10 (run : String → Nat → ExecOutcome)
    (command_data : CommandData) (duration : Nat) :
    (execute_command run command_data duration).command_uuid
        = command_data.command_uuid.getD "" ∧
    (execute_command run command_data duration).command_id
        = command_data.command_id.getD "" ∧
    (command_data.timeout = none →
      execute_command run command_data duration
        = mk_command_result (command_data.command_uuid.getD "")
            (command_data.command_id.getD "") 60 duration
            (run (command_data.command_string.getD "") 60)) := by
  refine ⟨mk_command_result_uuid _ _ _ _ _, mk_command_result_id _ _ _ _ _,
    fun h => ?_⟩
  simp [execute_command, h]

/-- Witness for C10: a record with every correlation field absent and
no timeout. -/
theorem claim_C10_witness :
    (execute_command (fun _ _ => ExecOutcome.completed 0 "hi\n" "")
        ⟨some "echo hi", none, none, none⟩ 0).command_uuid = "" ∧
    (execute_command (fun _ _ => ExecOutcome.completed 0 "hi\n" "")
        ⟨some "echo hi", none, none, none⟩ 0).command_id = "" ∧
    execute_command (fun _ _ => ExecOutcome.completed 0 "hi\n" "")
        ⟨some "echo hi", none, none, none⟩ 0
      = mk_command_result "" "" 60 0 (ExecOutcome.completed 0 "hi\n" "") := by
  have h := claim_C10 (fun _ _ => ExecOutcome.completed 0 "hi\n" "")
    ⟨some "echo hi", none, none, none⟩ 0
  exact ⟨h.1, h.2.1, h.2.2 rfl⟩

end EdgePulse
